import Mathlib

/-!
Verification development for the AMBSI1 CAN-to-ARCOM bridge firmware
(src/main.c).  The byte-level link protocol is embedded shallowly: the
remote side's behaviour during one transaction is abstracted as a
`LinkEnv`, which gives, for the k-th strobe-wait of the transaction, the
final value of the countdown timer (0 means the wait timed out), and, for
the k-th read of the data port, the byte present on the bus.  Every other
piece of code (router, negotiation, handlers) is translated directly.
-/

namespace AMBSI1

/-- Max CAN message payload size (MAX_CAN_MSG_PAYLOAD in main.c). -/
def MAX_CAN_MSG_PAYLOAD : Nat := 8

/-- Start value of every per-phase countdown (MAX_TIMEOUT in main.c). -/
def MAX_TIMEOUT : Nat := 500

/-- RCA used to retrieve the special monitor RCA range (0x20003). -/
def GET_SPECIAL_MONITOR_RCAS : Nat := 0x20003

/-- RCA used to retrieve the special control RCA range (0x20004). -/
def GET_SPECIAL_CONTROL_RCAS : Nat := 0x20004

/-- RCA used to retrieve the standard monitor RCA range (0x20005). -/
def GET_MONITOR_RCAS : Nat := 0x20005

/-- RCA used to retrieve the standard control RCA range (0x20006). -/
def GET_CONTROL_RCAS : Nat := 0x20006

/-- Lowest special RCA served by this firmware, not forwarded (0x20020). -/
def BASE_AMBSI1_RESERVED : Nat := 0x20020

/-- Highest special RCA served by this firmware, not forwarded (0x2003F). -/
def LAST_AMBSI1_RESERVED : Nat := 0x2003F

/-- Direction of a CAN message (CAN_MONITOR / CAN_CONTROL in the amb library). -/
inductive Dirn where
  | monitor
  | control
  deriving DecidableEq

/-- A CAN message as handled by the firmware: direction, 32-bit relative CAN
address, payload length and payload bytes (the 8-byte data array). -/
structure CAN_MSG_TYPE where
  dirn : Dirn
  relative_address : Nat
  len : Nat
  data : List Nat
  deriving DecidableEq

/-- Abstraction of the remote side during one link transaction.
`strobe k` is the value the countdown timer of the k-th IMPL_HANDSHAKE wait
holds when the wait ends (0 exactly when the wait timed out without the data
strobe dropping).  `port k` is the byte on the data bus at the k-th read. -/
structure LinkEnv where
  strobe : Nat → Nat
  port : Nat → Nat

/-- Observable outcome of one link transaction: the (possibly rewritten) CAN
message, the C return value, the bytes placed on the data bus during the send
phase, the number of reply payload bytes read, and the final state of the
data-bus direction register DP7 (true = output mode 0xFF) and of the
EPPS_INTERRUPT trigger line. -/
structure LinkResult where
  msg : CAN_MSG_TYPE
  ret : Int
  sends : List Nat
  payloadReads : Nat
  dp7out : Bool
  epps_interrupt : Bool
  deriving DecidableEq

/-- Reply-payload receive loop of implMonitorSingle (main.c 643-649):
for each byte, wait for strobe (monTimer7), read the port, toggle NWAIT and,
if that wait timed out, set the timeout flag and stop.  Arguments: remaining
iterations, loop counter, data array; result: data array, number of bytes
read, timeout flag. -/
def recvPayload (env : LinkEnv) : Nat → Nat → List Nat → List Nat × Nat × Bool
  | 0, counter, d => (d, counter, false)
  | remaining + 1, counter, d =>
    let monTimer7 := env.strobe (6 + counter)
    let d2 := d.set counter (env.port (1 + counter) % 256)
    if monTimer7 = 0 then (d2, counter + 1, true)
    else recvPayload env remaining (counter + 1) d2

/-- One monitor transaction (implMonitorSingle, main.c 591-669).  Strobe-wait
indices: 0-3 for the four address bytes (monTimer1-4), 4 for the send-length
phase (monTimer5), 5 for the reply length (monTimer6), 6+i for reply payload
byte i (monTimer7).  Only monTimer1 is checked during the send phase; the
timers of the other send phases are started but their expiry is never
examined, exactly as in the source. -/
def implMonitorSingle (env : LinkEnv) (message : CAN_MSG_TYPE) (sendReply : Bool) :
    LinkResult :=
  -- EPPS_INTERRUPT = 1; DP7 = 0xFF
  let monTimer1 := env.strobe 0
  if monTimer1 = 0 then
    -- EPPS_INTERRUPT = 0; return -1 with the message untouched
    { msg := message, ret := -1, sends := [message.relative_address % 256],
      payloadReads := 0, dp7out := true, epps_interrupt := false }
  else
    let monTimer2 := env.strobe 1
    let monTimer3 := env.strobe 2
    let monTimer4 := env.strobe 3
    let monTimer5 := env.strobe 4
    -- the send-length phase (main.c 626-627) waits and toggles NWAIT but,
    -- unlike the control path, never places message->len on the port, so
    -- only the four address bytes appear among the sent bytes
    let sends := [message.relative_address % 256,
                  message.relative_address / 2 ^ 8 % 256,
                  message.relative_address / 2 ^ 16 % 256,
                  message.relative_address / 2 ^ 24 % 256]
    -- DP7 = 0x00 (input); receive the reply length byte
    let monTimer6 := env.strobe 5
    let len6 := env.port 0 % 256
    let recv :=
      if monTimer6 = 0 ∨ MAX_CAN_MSG_PAYLOAD < len6 then (message.data, 0, true)
      else recvPayload env len6 0 message.data
    let timeout := recv.2.2
    -- DP7 = 0xFF; EPPS_INTERRUPT = 0
    { msg :=
        if timeout || !sendReply then
          { message with dirn := .control, len := 0, data := recv.1 }
        else
          { message with len := len6, data := recv.1 },
      ret := if timeout then -1 else 0,
      sends := sends,
      payloadReads := recv.2.1,
      dp7out := true, epps_interrupt := false }

/-- Payload send loop of implControlSingle (main.c 560-564): for each payload
byte, wait for strobe (cmdTimer6, never checked), put the byte on the port and
toggle NWAIT.  Returns the bytes placed on the bus. -/
def sendPayload (env : LinkEnv) : Nat → Nat → List Nat → List Nat
  | 0, _, _ => []
  | remaining + 1, counter, d =>
    let cmdTimer6 := env.strobe (5 + counter)
    d.getD counter 0 % 256 :: sendPayload env remaining (counter + 1) d

/-- One control transaction (implControlSingle, main.c 521-569).  Strobe-wait
indices: 0-3 for the address bytes (cmdTimer1-4), 4 for the length byte
(cmdTimer5), 5+i for payload byte i (cmdTimer6).  Only cmdTimer1 is checked;
every later wait may expire without aborting the transaction. -/
def implControlSingle (env : LinkEnv) (message : CAN_MSG_TYPE) : LinkResult :=
  -- EPPS_INTERRUPT = 1; DP7 = 0xFF
  let cmdTimer1 := env.strobe 0
  if cmdTimer1 = 0 then
    -- EPPS_INTERRUPT = 0; return -1
    { msg := message, ret := -1, sends := [message.relative_address % 256],
      payloadReads := 0, dp7out := true, epps_interrupt := false }
  else
    let cmdTimer2 := env.strobe 1
    let cmdTimer3 := env.strobe 2
    let cmdTimer4 := env.strobe 3
    let cmdTimer5 := env.strobe 4
    -- EPPS_INTERRUPT = 0; return 0
    { msg := message, ret := 0,
      sends := [message.relative_address % 256,
                message.relative_address / 2 ^ 8 % 256,
                message.relative_address / 2 ^ 16 % 256,
                message.relative_address / 2 ^ 24 % 256,
                message.len % 256] ++ sendPayload env message.len 0 message.data,
      payloadReads := 0, dp7out := true, epps_interrupt := false }

/-- Whether one monitor transaction run against `env` fails (returns -1):
the first address-byte wait timed out, or the reply-length wait timed out, or
the reported reply length exceeds 8, or some reply-payload-byte wait timed
out.  This depends only on the environment, not on the message. -/
def monFails (env : LinkEnv) : Bool :=
  decide (env.strobe 0 = 0) ||
  decide (env.strobe 5 = 0) ||
  decide (MAX_CAN_MSG_PAYLOAD < env.port 0 % 256) ||
  (List.range (env.port 0 % 256)).any fun i => decide (env.strobe (6 + i) = 0)

/-- Environments for one routed request: `m1` for the first monitor attempt,
`m2` for the retry, `c` for a control transaction. -/
structure RouterEnv where
  m1 : LinkEnv
  m2 : LinkEnv
  c : LinkEnv

/-- Outcome of the request router: final message, return value, how many
cross-direction redirects happened, and how many monitor transactions the
Transaction Engine ran. -/
structure RouterResult where
  msg : CAN_MSG_TYPE
  ret : Int
  redirects : Nat
  monAttempts : Nat
  deriving DecidableEq

/-- Control-direction processing body of controlMsg (main.c 580): one control
transaction, no retry. -/
def controlMsgBody (env : RouterEnv) (message : CAN_MSG_TYPE) : RouterResult :=
  let r := implControlSingle env.c message
  { msg := r.msg, ret := r.ret, redirects := 0, monAttempts := 0 }

/-- Monitor-direction processing body of monitorMsg (main.c 691-698): one
monitor transaction; on failure the whole transaction is retried once, on the
message as the first attempt left it. -/
def monitorMsgBody (env : RouterEnv) (message : CAN_MSG_TYPE) : RouterResult :=
  let r1 := implMonitorSingle env.m1 message true
  if r1.ret ≠ 0 then
    let r2 := implMonitorSingle env.m2 r1.msg true
    { msg := r2.msg, ret := r2.ret, redirects := 0, monAttempts := 2 }
  else
    { msg := r1.msg, ret := r1.ret, redirects := 0, monAttempts := 1 }

mutual

/-- controlMsg (main.c 576-581): a monitor-direction message arriving at a
control-range handler is redirected to monitorMsg; otherwise one control
transaction runs.  The fuel argument bounds the mutual redirection; the
source relies on the direction check making a second redirect impossible. -/
def controlMsg : Nat → RouterEnv → CAN_MSG_TYPE → RouterResult
  | 0, _, message => { msg := message, ret := -1, redirects := 0, monAttempts := 0 }
  | fuel + 1, env, message =>
    if message.dirn = .monitor then
      let r := monitorMsg fuel env message
      { r with redirects := r.redirects + 1 }
    else
      controlMsgBody env message

/-- monitorMsg (main.c 683-699): a control-direction message arriving at a
monitor-range handler is redirected to controlMsg; otherwise the monitor
transaction runs with its single retry. -/
def monitorMsg : Nat → RouterEnv → CAN_MSG_TYPE → RouterResult
  | 0, _, message => { msg := message, ret := -1, redirects := 0, monAttempts := 0 }
  | fuel + 1, env, message =>
    if message.dirn = .control then
      let r := controlMsg fuel env message
      { r with redirects := r.redirects + 1 }
    else
      monitorMsgBody env message

end

/-- Low bound parse of an 8-byte range reply (getSetupInfo, main.c 374-379):
little-endian from bytes 0-3. -/
def parseLowRCA (d : List Nat) : Nat :=
  (d.getD 3 0) <<< 24 + (d.getD 2 0) <<< 16 + (d.getD 1 0) <<< 8 + d.getD 0 0

/-- High bound parse of an 8-byte range reply (getSetupInfo, main.c 368-373):
little-endian from bytes 4-7. -/
def parseHighRCA (d : List Nat) : Nat :=
  (d.getD 7 0) <<< 24 + (d.getD 6 0) <<< 16 + (d.getD 5 0) <<< 8 + d.getD 4 0

/-- The inverse little-endian encoding named by the spec's byte-order
round-trip property: a 32-bit value back to its four bytes, low byte first. -/
def encodeLE32 (x : Nat) : List Nat :=
  [x % 256, x / 2 ^ 8 % 256, x / 2 ^ 16 % 256, x / 2 ^ 24 % 256]

/-- The CAN callbacks this firmware registers with the amb library. -/
inductive Handler where
  | monitorMsgH
  | controlMsgH
  | ambientMsgH
  | versionInfoH
  | reservedMsgH
  | setupInfoH
  deriving DecidableEq

/-- amb_register_function: push a (low, high, handler) range onto the
callback stack.  getSetupInfo ignores its return value, so capacity is not
modelled here. -/
def amb_register_function (low high : Nat) (h : Handler)
    (registry : List (Nat × Nat × Handler)) : List (Nat × Nat × Handler) :=
  (low, high, h) :: registry

/-- amb_unregister_last_function: pop the most recently registered range. -/
def amb_unregister_last_function (registry : List (Nat × Nat × Handler)) :
    List (Nat × Nat × Handler) :=
  registry.tail

/-- The firmware globals that getSetupInfo reads or writes: the callback
registry, the ready / initialized flags, the eight RCA bound globals and the
data array of the global myCANMessage scratch message. -/
structure SetupState where
  registry : List (Nat × Nat × Handler)
  ready : Bool
  initialized : Bool
  lowestMonitorRCA : Nat
  highestMonitorRCA : Nat
  lowestControlRCA : Nat
  highestControlRCA : Nat
  lowestSpecialMonitorRCA : Nat
  highestSpecialMonitorRCA : Nat
  lowestSpecialControlRCA : Nat
  highestSpecialControlRCA : Nat
  myData : List Nat
  deriving DecidableEq

/-- Outcome of getSetupInfo: new globals, the reply message, the C return
value, the number of ARCOM queries performed and the number of
amb_unregister_last_function calls made. -/
structure SetupResult where
  st : SetupState
  msg : CAN_MSG_TYPE
  ret : Int
  queries : Nat
  unregs : Nat
  deriving DecidableEq

/-- The monitor query getSetupInfo makes for one negotiation step: the global
myCANMessage is set up as a zero-length monitor request at the given RCA (its
data array keeping its previous contents) and sent without a CAN reply. -/
def setupQuery (env : LinkEnv) (addr : Nat) (d : List Nat) : LinkResult :=
  implMonitorSingle env
    { dirn := .monitor, relative_address := addr, len := 0, data := d } false

/-- Reply message of a failed negotiation step: status byte 0x07, timeout
while forwarding to the ARCOM board. -/
def setupTimeoutReply (message : CAN_MSG_TYPE) : CAN_MSG_TYPE :=
  { message with data := message.data.set 0 0x07 }

/-- Negotiation step 4 (getSetupInfo, main.c 444-479): CONTROL RCAs.  On
failure the four ranges registered by steps 1-3 are unregistered (LIFO); on
success the control range is registered, the firmware is marked initialized
and status 0 is reported. -/
def getSetupInfoStep4 (env : LinkEnv) (st : SetupState) (message : CAN_MSG_TYPE) :
    SetupResult :=
  let q4 := setupQuery env GET_CONTROL_RCAS st.myData
  let st4 := { st with myData := q4.msg.data }
  if q4.ret ≠ 0 then
    let reg4 :=
      amb_unregister_last_function
        (amb_unregister_last_function
          (amb_unregister_last_function
            (amb_unregister_last_function st4.registry)))
    { st := { st4 with registry := reg4 }, msg := setupTimeoutReply message,
      ret := -1, queries := 4, unregs := 4 }
  else
    let st4 := { st4 with
      highestControlRCA := parseHighRCA q4.msg.data,
      lowestControlRCA := parseLowRCA q4.msg.data }
    let reg4 :=
      amb_register_function st4.lowestControlRCA st4.highestControlRCA
        .controlMsgH st4.registry
    let st4 := { st4 with registry := reg4, initialized := true }
    { st := st4, msg := { message with data := message.data.set 0 0x00 },
      ret := 0, queries := 4, unregs := 0 }

/-- Negotiation step 3 (getSetupInfo, main.c 414-442): MONITOR RCAs.  On
failure the three ranges registered by steps 1-2 are unregistered (LIFO). -/
def getSetupInfoStep3 (envs : Nat → LinkEnv) (st : SetupState)
    (message : CAN_MSG_TYPE) : SetupResult :=
  let q3 := setupQuery (envs 2) GET_MONITOR_RCAS st.myData
  let st3 := { st with myData := q3.msg.data }
  if q3.ret ≠ 0 then
    let reg3 :=
      amb_unregister_last_function
        (amb_unregister_last_function
          (amb_unregister_last_function st3.registry))
    { st := { st3 with registry := reg3 }, msg := setupTimeoutReply message,
      ret := -1, queries := 3, unregs := 3 }
  else
    let st3 := { st3 with
      highestMonitorRCA := parseHighRCA q3.msg.data,
      lowestMonitorRCA := parseLowRCA q3.msg.data }
    let reg3 :=
      amb_register_function st3.lowestMonitorRCA st3.highestMonitorRCA
        .monitorMsgH st3.registry
    getSetupInfoStep4 (envs 3) { st3 with registry := reg3 } message

/-- Negotiation step 2 (getSetupInfo, main.c 385-412): SPECIAL CONTROL RCAs.
On failure the two ranges registered by step 1 are unregistered (LIFO). -/
def getSetupInfoStep2 (envs : Nat → LinkEnv) (st : SetupState)
    (message : CAN_MSG_TYPE) : SetupResult :=
  let q2 := setupQuery (envs 1) GET_SPECIAL_CONTROL_RCAS st.myData
  let st2 := { st with myData := q2.msg.data }
  if q2.ret ≠ 0 then
    let reg2 :=
      amb_unregister_last_function (amb_unregister_last_function st2.registry)
    { st := { st2 with registry := reg2 }, msg := setupTimeoutReply message,
      ret := -1, queries := 2, unregs := 2 }
  else
    let st2 := { st2 with
      highestSpecialControlRCA := parseHighRCA q2.msg.data,
      lowestSpecialControlRCA := parseLowRCA q2.msg.data }
    let reg2 :=
      amb_register_function st2.lowestSpecialControlRCA
        st2.highestSpecialControlRCA .controlMsgH st2.registry
    getSetupInfoStep3 envs { st2 with registry := reg2 } message

/-- Negotiation step 1 (getSetupInfo, main.c 358-383): SPECIAL MONITOR RCAs;
the range is registered in two pieces split around the firmware's reserved
diagnostic sub-range.  On failure nothing has been registered yet. -/
def getSetupInfoStep1 (envs : Nat → LinkEnv) (st : SetupState)
    (message : CAN_MSG_TYPE) : SetupResult :=
  let q1 := setupQuery (envs 0) GET_SPECIAL_MONITOR_RCAS st.myData
  let st1 := { st with myData := q1.msg.data }
  if q1.ret ≠ 0 then
    { st := st1, msg := setupTimeoutReply message,
      ret := -1, queries := 1, unregs := 0 }
  else
    let st1 := { st1 with
      highestSpecialMonitorRCA := parseHighRCA q1.msg.data,
      lowestSpecialMonitorRCA := parseLowRCA q1.msg.data }
    let reg1 :=
      amb_register_function (LAST_AMBSI1_RESERVED + 1)
        st1.highestSpecialMonitorRCA .monitorMsgH
        (amb_register_function st1.lowestSpecialMonitorRCA
          (BASE_AMBSI1_RESERVED - 1) .monitorMsgH st1.registry)
    getSetupInfoStep2 envs { st1 with registry := reg1 } message

/-- getSetupInfo (main.c 336-480): negotiation of the four ARCOM address
ranges.  A control message is rejected untouched; otherwise the reply is one
status byte: 6 when the local stack is not ready, 5 when setup already
completed (nothing re-queried), 7 when a step timed out (after LIFO rollback
of the ranges registered in this attempt), 0 on first-time success. -/
def getSetupInfo (envs : Nat → LinkEnv) (st : SetupState) (message : CAN_MSG_TYPE) :
    SetupResult :=
  if message.dirn = .control then
    { st := st, msg := message, ret := -1, queries := 0, unregs := 0 }
  else
    let message := { message with len := 1 }
    if !st.ready then
      { st := st, msg := { message with data := message.data.set 0 0x06 },
        ret := -1, queries := 0, unregs := 0 }
    else if st.initialized then
      { st := st, msg := { message with data := message.data.set 0 0x05 },
        ret := -1, queries := 0, unregs := 0 }
    else
      getSetupInfoStep1 envs st message

/-- ambient_msg (main.c 488-497): only a monitor request gets the 4-byte
temperature reply; any other message is returned untouched, return value 0
either way. -/
def ambient_msg (ambient_temp_data : List Nat) (message : CAN_MSG_TYPE) :
    CAN_MSG_TYPE × Int :=
  if message.dirn = .monitor then
    let d :=
      (((message.data.set 0 (ambient_temp_data.getD 0 0)).set 1
        (ambient_temp_data.getD 1 0)).set 2
        (ambient_temp_data.getD 2 0)).set 3 (ambient_temp_data.getD 3 0)
    ({ message with len := 4, data := d }, 0)
  else
    (message, 0)

/-- Environment in which every strobe wait succeeds; the reply length byte is
4 and every payload byte is 9. -/
def envOK : LinkEnv :=
  { strobe := fun _ => MAX_TIMEOUT, port := fun i => if i = 0 then 4 else 9 }

/-- Environment in which exactly the k-th strobe wait times out (the injected
fault of the timeout-containment property); reply bytes as in envOK. -/
def envTimeoutAt (k : Nat) : LinkEnv :=
  { strobe := fun j => if j = k then 0 else MAX_TIMEOUT,
    port := fun i => if i = 0 then 4 else 9 }

/-- An 8-byte all-zero data array, the idle payload buffer of a request. -/
def zeros8 : List Nat := [0, 0, 0, 0, 0, 0, 0, 0]

/-- Concrete firmware state right after boot-time registration: static
handlers registered, local stack ready, negotiation not yet done. -/
def st0 : SetupState :=
  { registry := [(0x30003, 0x30003, .ambientMsgH)], ready := true,
    initialized := false, lowestMonitorRCA := 0, highestMonitorRCA := 0,
    lowestControlRCA := 0, highestControlRCA := 0,
    lowestSpecialMonitorRCA := 0, highestSpecialMonitorRCA := 0,
    lowestSpecialControlRCA := 0, highestSpecialControlRCA := 0,
    myData := zeros8 }

/-- Concrete GET_SETUP_INFO monitor request. -/
def msgSetup : CAN_MSG_TYPE :=
  { dirn := .monitor, relative_address := 0x20001, len := 0, data := zeros8 }

/-- Environment family whose first `k` transactions succeed and whose later
transactions time out at the reply-length wait. -/
def envsFailFrom (k : Nat) : Nat → LinkEnv :=
  fun j => if j < k then envOK else envTimeoutAt 5

/-- The receive loop times out exactly when one of the strobe waits of the
requested byte range times out. -/
theorem recvPayload_timeout (env : LinkEnv) :
    ∀ remaining counter d,
      (recvPayload env remaining counter d).2.2 =
        (List.range' counter remaining).any fun i => decide (env.strobe (6 + i) = 0) := by
  intro remaining
  induction remaining with
  | zero => intro counter d; simp [recvPayload]
  | succ r ih =>
    intro counter d
    rw [List.range'_succ]
    simp only [recvPayload, List.any_cons]
    by_cases h : env.strobe (6 + counter) = 0
    · simp [h]
    · simp [h, ih]

/-- The return value of one monitor transaction depends only on the
environment: -1 exactly when `monFails`. -/
theorem implMonitorSingle_ret (env : LinkEnv) (m : CAN_MSG_TYPE) (s : Bool) :
    (implMonitorSingle env m s).ret = if monFails env then -1 else 0 := by
  unfold implMonitorSingle monFails
  by_cases h0 : env.strobe 0 = 0
  · simp [h0]
  · rw [if_neg h0]
    by_cases h5 : env.strobe 5 = 0 ∨ MAX_CAN_MSG_PAYLOAD < env.port 0 % 256
    · rcases h5 with h5 | h5 <;> simp [h5, h0]
    · push_neg at h5
      obtain ⟨h5a, h5b⟩ := h5
      have h5c : ¬MAX_CAN_MSG_PAYLOAD < env.port 0 % 256 := by omega
      simp [h0, h5a, h5c, recvPayload_timeout, List.range_eq_range']

/-- A monitor transaction whose first strobe wait times out returns -1 at
once with the message untouched and only the first address byte sent. -/
theorem implMonitorSingle_strobe0 (env : LinkEnv) (m : CAN_MSG_TYPE) (s : Bool)
    (h : env.strobe 0 = 0) :
    implMonitorSingle env m s =
      { msg := m, ret := -1, sends := [m.relative_address % 256],
        payloadReads := 0, dp7out := true, epps_interrupt := false } := by
  unfold implMonitorSingle
  rw [if_pos h]

/-- Disjoint-bit decomposition: a value below 2 ^ k ored with a k-shifted
value is their sum. -/
theorem lor_shiftLeft_eq_add {a : Nat} (b k : Nat) (h : a < 2 ^ k) :
    a ||| b <<< k = a + b <<< k := by
  rw [Nat.shiftLeft_eq, Nat.lor_comm, Nat.mul_comm, ← Nat.mul_add_lt_is_or h,
    Nat.add_comm]

/-- Four bytes ored into place equal the shift-and-add expression used by
getSetupInfo. -/
theorem bytes_lor_eq_add (b0 b1 b2 b3 : Nat) (h0 : b0 < 256) (h1 : b1 < 256)
    (h2 : b2 < 256) :
    (b0 ||| b1 <<< 8 ||| b2 <<< 16 ||| b3 <<< 24) =
      b3 <<< 24 + b2 <<< 16 + b1 <<< 8 + b0 := by
  have e1 : b0 ||| b1 <<< 8 = b0 + b1 <<< 8 :=
    lor_shiftLeft_eq_add b1 8 (by omega)
  have e2 : (b0 + b1 <<< 8) ||| b2 <<< 16 = b0 + b1 <<< 8 + b2 <<< 16 :=
    lor_shiftLeft_eq_add b2 16 (by rw [Nat.shiftLeft_eq]; omega)
  have e3 : (b0 + b1 <<< 8 + b2 <<< 16) ||| b3 <<< 24 =
      b0 + b1 <<< 8 + b2 <<< 16 + b3 <<< 24 :=
    lor_shiftLeft_eq_add b3 24 (by rw [Nat.shiftLeft_eq, Nat.shiftLeft_eq]; omega)
  rw [e1, e2, e3]
  simp only [Nat.shiftLeft_eq]
  omega

/-- Setting index 0 of a nonempty list is read back by getD. -/
theorem getD_set_zero (l : List Nat) (v : Nat) (h : l ≠ []) :
    (l.set 0 v).getD 0 0 = v := by
  cases l with
  | nil => exact absurd rfl h
  | cons a t => simp

/-- A monitor transaction that gets past the first address byte but fails
leaves the message direction-flipped with length 0 (the failure is detected
in the receive phase, so the degraded-reply rewrite runs). -/
theorem implMonitorSingle_fail_flip (env : LinkEnv) (m : CAN_MSG_TYPE) (s : Bool)
    (h0 : env.strobe 0 ≠ 0) (hf : monFails env = true) :
    (implMonitorSingle env m s).msg.dirn = .control ∧
    (implMonitorSingle env m s).msg.len = 0 := by
  unfold implMonitorSingle
  rw [if_neg h0]
  by_cases h5 : env.strobe 5 = 0 ∨ MAX_CAN_MSG_PAYLOAD < env.port 0 % 256
  · simp [if_pos h5]
  · have hrecv : (recvPayload env (env.port 0 % 256) 0 m.data).2.2 = true := by
      rw [recvPayload_timeout, ← List.range_eq_range']
      unfold monFails at hf
      push_neg at h5
      have h5c : ¬MAX_CAN_MSG_PAYLOAD < env.port 0 % 256 := by omega
      simp [h0, h5.1, h5c] at hf
      obtain ⟨x, hx, hx0⟩ := hf
      simp only [List.any_eq_true, List.mem_range, decide_eq_true_eq]
      exact ⟨x, hx, hx0⟩
    simp [if_neg h5, hrecv]

/-- C2 (corrected): in both transaction forms only the FIRST address byte's
strobe wait is checked: if its timer reaches zero the transaction fails with
Timeout immediately, with only that byte placed on the bus and the message
untouched; when that first wait succeeds, a control transaction returns
success and sends all remaining bytes regardless of the later timers. -/
theorem address_phase_timeout_policy (env : LinkEnv) (message : CAN_MSG_TYPE)
    (s : Bool) :
    (env.strobe 0 = 0 →
      implControlSingle env message =
        { msg := message, ret := -1, sends := [message.relative_address % 256],
          payloadReads := 0, dp7out := true, epps_interrupt := false } ∧
      implMonitorSingle env message s =
        { msg := message, ret := -1, sends := [message.relative_address % 256],
          payloadReads := 0, dp7out := true, epps_interrupt := false }) ∧
    (env.strobe 0 ≠ 0 →
      (implControlSingle env message).ret = 0 ∧
      (implControlSingle env message).sends =
        [message.relative_address % 256, message.relative_address / 2 ^ 8 % 256,
         message.relative_address / 2 ^ 16 % 256,
         message.relative_address / 2 ^ 24 % 256,
         message.len % 256] ++ sendPayload env message.len 0 message.data) := by
  constructor
  · intro h0
    constructor <;> simp [implControlSingle, implMonitorSingle, h0]
  · intro h0
    constructor <;> simp [implControlSingle, h0]

/-- C2 witness: with the very first strobe wait timed out, both engines fail
immediately having sent one byte. -/
theorem address_phase_timeout_policy_w :
    implControlSingle (envTimeoutAt 0)
        { dirn := .control, relative_address := 0x0102, len := 1, data := zeros8 } =
      { msg := { dirn := .control, relative_address := 0x0102, len := 1,
                 data := zeros8 },
        ret := -1, sends := [2], payloadReads := 0, dp7out := true,
        epps_interrupt := false } :=
  ((address_phase_timeout_policy (envTimeoutAt 0)
    { dirn := .control, relative_address := 0x0102, len := 1, data := zeros8 }
    true).1 (by decide)).1

/-- C2 counterexample: the second address byte's wait times out
(strobe index 1), yet the control transaction reports success and all six
bytes (four address bytes, length, one payload byte) are sent — the claim
predicted immediate Timeout with no further bytes. -/
theorem address_phase_timeout_cex :
    (envTimeoutAt 1).strobe 1 = 0 ∧
    (implControlSingle (envTimeoutAt 1)
        { dirn := .control, relative_address := 0x0102, len := 1,
          data := zeros8 }).ret = 0 ∧
    (implControlSingle (envTimeoutAt 1)
        { dirn := .control, relative_address := 0x0102, len := 1,
          data := zeros8 }).sends.length = 6 := by
  decide

/-- C6: the 8-byte range reply is parsed as two little-endian 32-bit bounds
(the or-of-shifted-bytes form), and re-encoding the parsed pair with the
little-endian encoding reproduces the original bytes. -/
theorem rca_range_byte_order (d : List Nat) (hlen : d.length = 8)
    (hb : ∀ b ∈ d, b < 256) :
    parseLowRCA d =
      (d.getD 0 0 ||| d.getD 1 0 <<< 8 ||| d.getD 2 0 <<< 16 ||| d.getD 3 0 <<< 24) ∧
    parseHighRCA d =
      (d.getD 4 0 ||| d.getD 5 0 <<< 8 ||| d.getD 6 0 <<< 16 ||| d.getD 7 0 <<< 24) ∧
    encodeLE32 (parseLowRCA d) ++ encodeLE32 (parseHighRCA d) = d := by
  obtain ⟨b0, b1, b2, b3, b4, b5, b6, b7, rfl⟩ :
      ∃ b0 b1 b2 b3 b4 b5 b6 b7, d = [b0, b1, b2, b3, b4, b5, b6, b7] := by
    rcases d with _ | ⟨b0, _ | ⟨b1, _ | ⟨b2, _ | ⟨b3, _ | ⟨b4, _ | ⟨b5, _ | ⟨b6,
      _ | ⟨b7, _ | ⟨b8, t⟩⟩⟩⟩⟩⟩⟩⟩⟩ <;>
      first
      | exact ⟨_, _, _, _, _, _, _, _, rfl⟩
      | simp_all
  have h0 : b0 < 256 := hb b0 (by simp)
  have h1 : b1 < 256 := hb b1 (by simp)
  have h2 : b2 < 256 := hb b2 (by simp)
  have h3 : b3 < 256 := hb b3 (by simp)
  have h4 : b4 < 256 := hb b4 (by simp)
  have h5 : b5 < 256 := hb b5 (by simp)
  have h6 : b6 < 256 := hb b6 (by simp)
  have h7 : b7 < 256 := hb b7 (by simp)
  refine ⟨?_, ?_, ?_⟩
  · rw [show ([b0, b1, b2, b3, b4, b5, b6, b7] : List Nat).getD 0 0 = b0 from rfl,
      show ([b0, b1, b2, b3, b4, b5, b6, b7] : List Nat).getD 1 0 = b1 from rfl,
      show ([b0, b1, b2, b3, b4, b5, b6, b7] : List Nat).getD 2 0 = b2 from rfl,
      show ([b0, b1, b2, b3, b4, b5, b6, b7] : List Nat).getD 3 0 = b3 from rfl,
      bytes_lor_eq_add b0 b1 b2 b3 h0 h1 h2]
    simp [parseLowRCA]
  · rw [show ([b0, b1, b2, b3, b4, b5, b6, b7] : List Nat).getD 4 0 = b4 from rfl,
      show ([b0, b1, b2, b3, b4, b5, b6, b7] : List Nat).getD 5 0 = b5 from rfl,
      show ([b0, b1, b2, b3, b4, b5, b6, b7] : List Nat).getD 6 0 = b6 from rfl,
      show ([b0, b1, b2, b3, b4, b5, b6, b7] : List Nat).getD 7 0 = b7 from rfl,
      bytes_lor_eq_add b4 b5 b6 b7 h4 h5 h6]
    simp [parseHighRCA]
  · simp only [parseLowRCA, parseHighRCA, encodeLE32, Nat.shiftLeft_eq,
      List.getD_cons_zero, List.getD_cons_succ, List.getD_nil,
      List.cons_append, List.nil_append, List.cons.injEq, and_true]
    omega

/-- C6 witness at a concrete reply. -/
theorem rca_range_byte_order_w :
    parseLowRCA [1, 2, 3, 4, 5, 6, 7, 8] =
      ((1 : Nat) ||| 2 <<< 8 ||| 3 <<< 16 ||| 4 <<< 24) ∧
    parseHighRCA [1, 2, 3, 4, 5, 6, 7, 8] =
      ((5 : Nat) ||| 6 <<< 8 ||| 7 <<< 16 ||| 8 <<< 24) ∧
    encodeLE32 (parseLowRCA [1, 2, 3, 4, 5, 6, 7, 8]) ++
        encodeLE32 (parseHighRCA [1, 2, 3, 4, 5, 6, 7, 8]) =
      [1, 2, 3, 4, 5, 6, 7, 8] :=
  rca_range_byte_order [1, 2, 3, 4, 5, 6, 7, 8] (by decide) (by decide)

/-- C8: if the reply length byte exceeds 8 or the length-phase strobe wait
timed out, the monitor transaction is marked Timeout, the result length is 0,
the direction is flipped and no payload byte is read; both causes yield the
identical result. -/
theorem reply_length_guard (env : LinkEnv) (message : CAN_MSG_TYPE)
    (h0 : env.strobe 0 ≠ 0)
    (h : env.strobe 5 = 0 ∨ MAX_CAN_MSG_PAYLOAD < env.port 0 % 256) :
    implMonitorSingle env message true =
      { msg := { message with dirn := .control, len := 0 }, ret := -1,
        sends := [message.relative_address % 256,
                  message.relative_address / 2 ^ 8 % 256,
                  message.relative_address / 2 ^ 16 % 256,
                  message.relative_address / 2 ^ 24 % 256],
        payloadReads := 0, dp7out := true, epps_interrupt := false } := by
  unfold implMonitorSingle
  rw [if_neg h0]
  simp [if_pos h]

/-- C8 witness: length-phase strobe timeout. -/
theorem reply_length_guard_w :
    implMonitorSingle (envTimeoutAt 5)
        { dirn := .monitor, relative_address := 7, len := 0, data := zeros8 } true =
      { msg := { dirn := .control, relative_address := 7, len := 0, data := zeros8 },
        ret := -1, sends := [7, 0, 0, 0], payloadReads := 0, dp7out := true,
        epps_interrupt := false } :=
  reply_length_guard (envTimeoutAt 5)
    { dirn := .monitor, relative_address := 7, len := 0, data := zeros8 }
    (by decide) (by decide)

/-- C9: on every exit path of either link transaction the data bus direction
register is left in output mode and the trigger line is de-asserted. -/
theorem cleanup_on_every_exit (env : LinkEnv) (message : CAN_MSG_TYPE) (s : Bool) :
    (implMonitorSingle env message s).dp7out = true ∧
    (implMonitorSingle env message s).epps_interrupt = false ∧
    (implControlSingle env message).dp7out = true ∧
    (implControlSingle env message).epps_interrupt = false := by
  refine ⟨?_, ?_, ?_, ?_⟩ <;> by_cases h0 : env.strobe 0 = 0 <;>
    simp [implMonitorSingle, implControlSingle, h0]

/-- C10: a control-direction message to the ambient temperature handler is
returned completely unchanged with return value 0. -/
theorem ambient_control_unchanged (t : List Nat) (m : CAN_MSG_TYPE)
    (h : m.dirn = .control) :
    ambient_msg t m = (m, 0) := by
  unfold ambient_msg
  rw [h]
  simp

/-- C10 witness. -/
theorem ambient_control_unchanged_w :
    ambient_msg [1, 2, 3, 4]
        { dirn := .control, relative_address := 0x30003, len := 2, data := zeros8 } =
      ({ dirn := .control, relative_address := 0x30003, len := 2, data := zeros8 }, 0) :=
  ambient_control_unchanged [1, 2, 3, 4]
    { dirn := .control, relative_address := 0x30003, len := 2, data := zeros8 } rfl

/-- C1 (corrected): when both monitor attempts fail and the retry's failure
is detected in the receive phase (its first address-byte wait succeeded, so
the injected timeout hit the reply-length wait, an over-limit reply length,
or a reply-payload wait), the message the router passes back to the CAN
stack has length 0 and its direction flipped to Control. -/
theorem timeout_containment (env : RouterEnv) (msg : CAN_MSG_TYPE)
    (h2 : env.m2.strobe 0 ≠ 0)
    (hf1 : monFails env.m1 = true) (hf2 : monFails env.m2 = true) :
    (monitorMsgBody env msg).msg.len = 0 ∧
    (monitorMsgBody env msg).msg.dirn = .control ∧
    (monitorMsgBody env msg).ret = -1 := by
  have hret1 : (implMonitorSingle env.m1 msg true).ret = -1 := by
    simp [implMonitorSingle_ret, hf1]
  have flip2 := implMonitorSingle_fail_flip env.m2
    (implMonitorSingle env.m1 msg true).msg true h2 hf2
  have hret2 : (implMonitorSingle env.m2
      (implMonitorSingle env.m1 msg true).msg true).ret = -1 := by
    simp [implMonitorSingle_ret, hf2]
  simp [monitorMsgBody, hret1, hret2, flip2.1, flip2.2]

/-- C1 witness: both attempts time out at the reply-length wait. -/
theorem timeout_containment_w :
    (monitorMsgBody { m1 := envTimeoutAt 5, m2 := envTimeoutAt 5, c := envOK }
        { dirn := .monitor, relative_address := 5, len := 0, data := zeros8 }).msg.len = 0 ∧
    (monitorMsgBody { m1 := envTimeoutAt 5, m2 := envTimeoutAt 5, c := envOK }
        { dirn := .monitor, relative_address := 5, len := 0, data := zeros8 }).msg.dirn = .control ∧
    (monitorMsgBody { m1 := envTimeoutAt 5, m2 := envTimeoutAt 5, c := envOK }
        { dirn := .monitor, relative_address := 5, len := 0, data := zeros8 }).ret = -1 :=
  timeout_containment { m1 := envTimeoutAt 5, m2 := envTimeoutAt 5, c := envOK }
    { dirn := .monitor, relative_address := 5, len := 0, data := zeros8 }
    (by decide) (by decide) (by decide)

/-- C1 counterexample: the injected strobe timeout at phase 2 (second address
byte, strobe index 1) goes undetected — the transaction completes normally
and the reply keeps its received length 4 and Monitor direction, not the
length-0 Control-flipped reply the claim requires for every phase. -/
theorem timeout_containment_cex :
    (envTimeoutAt 1).strobe 1 = 0 ∧
    (monitorMsgBody { m1 := envTimeoutAt 1, m2 := envTimeoutAt 1, c := envOK }
        { dirn := .monitor, relative_address := 5, len := 0, data := zeros8 }).msg.len = 4 ∧
    (monitorMsgBody { m1 := envTimeoutAt 1, m2 := envTimeoutAt 1, c := envOK }
        { dirn := .monitor, relative_address := 5, len := 0, data := zeros8 }).msg.dirn = .monitor := by
  decide

/-- C3 (corrected): the router runs at most two monitor transactions; a first
success is returned with no retry; a first failure is retried exactly once
and the second result is final.  The degraded empty direction-flipped reply
appears only when the final failure is detected in the receive phase; when
the second attempt dies on the first address byte the message is passed back
exactly as the first attempt left it. -/
theorem monitor_retry_policy (env : RouterEnv) (msg : CAN_MSG_TYPE) :
    (monitorMsgBody env msg).monAttempts ≤ 2 ∧
    (monFails env.m1 = false →
      monitorMsgBody env msg =
        { msg := (implMonitorSingle env.m1 msg true).msg, ret := 0,
          redirects := 0, monAttempts := 1 }) ∧
    (monFails env.m1 = true →
      monitorMsgBody env msg =
        { msg := (implMonitorSingle env.m2
            (implMonitorSingle env.m1 msg true).msg true).msg,
          ret := if monFails env.m2 then -1 else 0, redirects := 0,
          monAttempts := 2 } ∧
      (monFails env.m2 = true → env.m2.strobe 0 ≠ 0 →
        (monitorMsgBody env msg).msg.len = 0 ∧
        (monitorMsgBody env msg).msg.dirn = .control) ∧
      (env.m2.strobe 0 = 0 →
        (monitorMsgBody env msg).msg = (implMonitorSingle env.m1 msg true).msg)) := by
  cases hf1 : monFails env.m1 with
  | false =>
    have hret : (implMonitorSingle env.m1 msg true).ret = 0 := by
      simp [implMonitorSingle_ret, hf1]
    refine ⟨by simp [monitorMsgBody, hret], fun _ => by simp [monitorMsgBody, hret],
      fun hc => absurd hc (by simp)⟩
  | true =>
    have hret : (implMonitorSingle env.m1 msg true).ret = -1 := by
      simp [implMonitorSingle_ret, hf1]
    refine ⟨by simp [monitorMsgBody, hret], fun hc => absurd hc (by simp), fun _ => ?_⟩
    refine ⟨by simp [monitorMsgBody, hret, implMonitorSingle_ret], ?_, ?_⟩
    · intro hf2 h0
      have flip2 := implMonitorSingle_fail_flip env.m2
        (implMonitorSingle env.m1 msg true).msg true h0 hf2
      simp [monitorMsgBody, hret, flip2.1, flip2.2]
    · intro h0
      have e2 := implMonitorSingle_strobe0 env.m2
        (implMonitorSingle env.m1 msg true).msg true h0
      simp [monitorMsgBody, hret, e2]

/-- C3 witness: a clean first attempt is returned with a single invocation. -/
theorem monitor_retry_policy_w :
    monitorMsgBody { m1 := envOK, m2 := envOK, c := envOK }
        { dirn := .monitor, relative_address := 3, len := 0, data := zeros8 } =
      { msg := (implMonitorSingle envOK
          { dirn := .monitor, relative_address := 3, len := 0, data := zeros8 } true).msg,
        ret := 0, redirects := 0, monAttempts := 1 } :=
  (monitor_retry_policy { m1 := envOK, m2 := envOK, c := envOK }
    { dirn := .monitor, relative_address := 3, len := 0, data := zeros8 }).2.1 (by decide)

/-- C3 counterexample: both attempts die on the first address byte; the final
reply is the request passed back unmodified (length 3, direction still
Monitor), not the degraded empty direction-flipped reply the claim
promises for a double failure. -/
theorem monitor_retry_policy_cex :
    (monitorMsgBody { m1 := envTimeoutAt 0, m2 := envTimeoutAt 0, c := envOK }
        { dirn := .monitor, relative_address := 5, len := 3, data := zeros8 }).ret = -1 ∧
    ¬((monitorMsgBody { m1 := envTimeoutAt 0, m2 := envTimeoutAt 0, c := envOK }
        { dirn := .monitor, relative_address := 5, len := 3, data := zeros8 }).msg.len = 0 ∧
      (monitorMsgBody { m1 := envTimeoutAt 0, m2 := envTimeoutAt 0, c := envOK }
        { dirn := .monitor, relative_address := 5, len := 3, data := zeros8 }).msg.dirn = .control) := by
  decide

/-- C7: a message delivered to the handler of the opposite direction is
redirected exactly once to the handler matching its direction, which
processes it without redirecting again (redirect count 1); a message at the
matching handler is processed with no redirect, for any remaining fuel. -/
theorem cross_dispatch_once (fuel : Nat) (env : RouterEnv) (msg : CAN_MSG_TYPE) :
    (msg.dirn = .control →
      monitorMsg (fuel + 2) env msg = { controlMsgBody env msg with redirects := 1 } ∧
      controlMsg (fuel + 2) env msg = controlMsgBody env msg) ∧
    (msg.dirn = .monitor →
      controlMsg (fuel + 2) env msg = { monitorMsgBody env msg with redirects := 1 } ∧
      monitorMsg (fuel + 2) env msg = monitorMsgBody env msg) := by
  constructor
  · intro h
    constructor
    · simp [monitorMsg, controlMsg, h, controlMsgBody]
    · simp [controlMsg, h]
  · intro h
    constructor
    · simp [controlMsg, monitorMsg, h, monitorMsgBody]
      split <;> rfl
    · simp [monitorMsg, h]

/-- The outcome of one negotiation query depends only on the environment. -/
theorem setupQuery_ret (env : LinkEnv) (addr : Nat) (d : List Nat) :
    (setupQuery env addr d).ret = if monFails env then -1 else 0 :=
  implMonitorSingle_ret env _ false

/-- Step 4 failure: the four ranges registered in this attempt are popped. -/
theorem getSetupInfoStep4_fail (env : LinkEnv) (st : SetupState)
    (message : CAN_MSG_TYPE) (h : monFails env = true) :
    getSetupInfoStep4 env st message =
      { st := { st with
          myData := (setupQuery env GET_CONTROL_RCAS st.myData).msg.data,
          registry := st.registry.tail.tail.tail.tail },
        msg := setupTimeoutReply message, ret := -1, queries := 4, unregs := 4 } := by
  have hq : (setupQuery env GET_CONTROL_RCAS st.myData).ret = -1 := by
    simp [setupQuery_ret, h]
  unfold getSetupInfoStep4
  simp [hq, amb_unregister_last_function]

/-- Step 4 success: the control range is pushed and the firmware is marked
initialized, reporting status 0. -/
theorem getSetupInfoStep4_ok (env : LinkEnv) (st : SetupState)
    (message : CAN_MSG_TYPE) (h : monFails env = false) :
    getSetupInfoStep4 env st message =
      { st := { st with
          myData := (setupQuery env GET_CONTROL_RCAS st.myData).msg.data,
          highestControlRCA :=
            parseHighRCA (setupQuery env GET_CONTROL_RCAS st.myData).msg.data,
          lowestControlRCA :=
            parseLowRCA (setupQuery env GET_CONTROL_RCAS st.myData).msg.data,
          registry :=
            (parseLowRCA (setupQuery env GET_CONTROL_RCAS st.myData).msg.data,
             parseHighRCA (setupQuery env GET_CONTROL_RCAS st.myData).msg.data,
             Handler.controlMsgH) :: st.registry,
          initialized := true },
        msg := { message with data := message.data.set 0 0x00 },
        ret := 0, queries := 4, unregs := 0 } := by
  have hq : (setupQuery env GET_CONTROL_RCAS st.myData).ret = 0 := by
    simp [setupQuery_ret, h]
  unfold getSetupInfoStep4
  simp [hq, amb_register_function]

/-- Step 3 failure: the three ranges registered in steps 1-2 are popped. -/
theorem getSetupInfoStep3_fail (envs : Nat → LinkEnv) (st : SetupState)
    (message : CAN_MSG_TYPE) (h : monFails (envs 2) = true) :
    getSetupInfoStep3 envs st message =
      { st := { st with
          myData := (setupQuery (envs 2) GET_MONITOR_RCAS st.myData).msg.data,
          registry := st.registry.tail.tail.tail },
        msg := setupTimeoutReply message, ret := -1, queries := 3, unregs := 3 } := by
  have hq : (setupQuery (envs 2) GET_MONITOR_RCAS st.myData).ret = -1 := by
    simp [setupQuery_ret, h]
  unfold getSetupInfoStep3
  simp [hq, amb_unregister_last_function]

/-- Step 3 success: the monitor range is pushed and step 4 runs. -/
theorem getSetupInfoStep3_ok (envs : Nat → LinkEnv) (st : SetupState)
    (message : CAN_MSG_TYPE) (h : monFails (envs 2) = false) :
    getSetupInfoStep3 envs st message =
      getSetupInfoStep4 (envs 3)
        { st with
          myData := (setupQuery (envs 2) GET_MONITOR_RCAS st.myData).msg.data,
          highestMonitorRCA :=
            parseHighRCA (setupQuery (envs 2) GET_MONITOR_RCAS st.myData).msg.data,
          lowestMonitorRCA :=
            parseLowRCA (setupQuery (envs 2) GET_MONITOR_RCAS st.myData).msg.data,
          registry :=
            (parseLowRCA (setupQuery (envs 2) GET_MONITOR_RCAS st.myData).msg.data,
             parseHighRCA (setupQuery (envs 2) GET_MONITOR_RCAS st.myData).msg.data,
             Handler.monitorMsgH) :: st.registry }
        message := by
  have hq : (setupQuery (envs 2) GET_MONITOR_RCAS st.myData).ret = 0 := by
    simp [setupQuery_ret, h]
  unfold getSetupInfoStep3
  simp [hq, amb_register_function]

/-- Step 2 failure: the two ranges registered in step 1 are popped. -/
theorem getSetupInfoStep2_fail (envs : Nat → LinkEnv) (st : SetupState)
    (message : CAN_MSG_TYPE) (h : monFails (envs 1) = true) :
    getSetupInfoStep2 envs st message =
      { st := { st with
          myData :=
            (setupQuery (envs 1) GET_SPECIAL_CONTROL_RCAS st.myData).msg.data,
          registry := st.registry.tail.tail },
        msg := setupTimeoutReply message, ret := -1, queries := 2, unregs := 2 } := by
  have hq : (setupQuery (envs 1) GET_SPECIAL_CONTROL_RCAS st.myData).ret = -1 := by
    simp [setupQuery_ret, h]
  unfold getSetupInfoStep2
  simp [hq, amb_unregister_last_function]

/-- Step 2 success: the special control range is pushed and step 3 runs. -/
theorem getSetupInfoStep2_ok (envs : Nat → LinkEnv) (st : SetupState)
    (message : CAN_MSG_TYPE) (h : monFails (envs 1) = false) :
    getSetupInfoStep2 envs st message =
      getSetupInfoStep3 envs
        { st with
          myData :=
            (setupQuery (envs 1) GET_SPECIAL_CONTROL_RCAS st.myData).msg.data,
          highestSpecialControlRCA :=
            parseHighRCA (setupQuery (envs 1) GET_SPECIAL_CONTROL_RCAS st.myData).msg.data,
          lowestSpecialControlRCA :=
            parseLowRCA (setupQuery (envs 1) GET_SPECIAL_CONTROL_RCAS st.myData).msg.data,
          registry :=
            (parseLowRCA (setupQuery (envs 1) GET_SPECIAL_CONTROL_RCAS st.myData).msg.data,
             parseHighRCA (setupQuery (envs 1) GET_SPECIAL_CONTROL_RCAS st.myData).msg.data,
             Handler.controlMsgH) :: st.registry }
        message := by
  have hq : (setupQuery (envs 1) GET_SPECIAL_CONTROL_RCAS st.myData).ret = 0 := by
    simp [setupQuery_ret, h]
  unfold getSetupInfoStep2
  simp [hq, amb_register_function]

/-- Step 1 failure: nothing was registered yet, nothing is popped. -/
theorem getSetupInfoStep1_fail (envs : Nat → LinkEnv) (st : SetupState)
    (message : CAN_MSG_TYPE) (h : monFails (envs 0) = true) :
    getSetupInfoStep1 envs st message =
      { st := { st with
          myData :=
            (setupQuery (envs 0) GET_SPECIAL_MONITOR_RCAS st.myData).msg.data },
        msg := setupTimeoutReply message, ret := -1, queries := 1, unregs := 0 } := by
  have hq : (setupQuery (envs 0) GET_SPECIAL_MONITOR_RCAS st.myData).ret = -1 := by
    simp [setupQuery_ret, h]
  unfold getSetupInfoStep1
  simp [hq]

/-- Step 1 success: the special monitor range is pushed in two pieces split
around the reserved diagnostic sub-range, then step 2 runs. -/
theorem getSetupInfoStep1_ok (envs : Nat → LinkEnv) (st : SetupState)
    (message : CAN_MSG_TYPE) (h : monFails (envs 0) = false) :
    getSetupInfoStep1 envs st message =
      getSetupInfoStep2 envs
        { st with
          myData :=
            (setupQuery (envs 0) GET_SPECIAL_MONITOR_RCAS st.myData).msg.data,
          highestSpecialMonitorRCA :=
            parseHighRCA (setupQuery (envs 0) GET_SPECIAL_MONITOR_RCAS st.myData).msg.data,
          lowestSpecialMonitorRCA :=
            parseLowRCA (setupQuery (envs 0) GET_SPECIAL_MONITOR_RCAS st.myData).msg.data,
          registry :=
            (LAST_AMBSI1_RESERVED + 1,
             parseHighRCA (setupQuery (envs 0) GET_SPECIAL_MONITOR_RCAS st.myData).msg.data,
             Handler.monitorMsgH) ::
            (parseLowRCA (setupQuery (envs 0) GET_SPECIAL_MONITOR_RCAS st.myData).msg.data,
             BASE_AMBSI1_RESERVED - 1, Handler.monitorMsgH) :: st.registry }
        message := by
  have hq : (setupQuery (envs 0) GET_SPECIAL_MONITOR_RCAS st.myData).ret = 0 := by
    simp [setupQuery_ret, h]
  unfold getSetupInfoStep1
  simp [hq, amb_register_function]

/-- A monitor-direction setup request that finds the stack ready and the link
not yet negotiated enters negotiation step 1 with its length set to 1. -/
theorem getSetupInfo_enters_step1 (envs : Nat → LinkEnv) (st : SetupState)
    (msg : CAN_MSG_TYPE) (hm : msg.dirn = .monitor) (hr : st.ready = true)
    (hi : st.initialized = false) :
    getSetupInfo envs st msg = getSetupInfoStep1 envs st { msg with len := 1 } := by
  unfold getSetupInfo
  simp [hm, hr, hi]

/-- Negotiation never changes the length of the request message once set. -/
theorem getSetupInfoStep4_msg_len (env : LinkEnv) (st : SetupState)
    (m : CAN_MSG_TYPE) : (getSetupInfoStep4 env st m).msg.len = m.len := by
  cases h : monFails env
  · rw [getSetupInfoStep4_ok env st m h]
  · rw [getSetupInfoStep4_fail env st m h]
    simp [setupTimeoutReply]

/-- Step 3 preserves the request message's length. -/
theorem getSetupInfoStep3_msg_len (envs : Nat → LinkEnv) (st : SetupState)
    (m : CAN_MSG_TYPE) : (getSetupInfoStep3 envs st m).msg.len = m.len := by
  cases h : monFails (envs 2)
  · rw [getSetupInfoStep3_ok envs st m h]
    exact getSetupInfoStep4_msg_len _ _ _
  · rw [getSetupInfoStep3_fail envs st m h]
    simp [setupTimeoutReply]

/-- Step 2 preserves the request message's length. -/
theorem getSetupInfoStep2_msg_len (envs : Nat → LinkEnv) (st : SetupState)
    (m : CAN_MSG_TYPE) : (getSetupInfoStep2 envs st m).msg.len = m.len := by
  cases h : monFails (envs 1)
  · rw [getSetupInfoStep2_ok envs st m h]
    exact getSetupInfoStep3_msg_len _ _ _
  · rw [getSetupInfoStep2_fail envs st m h]
    simp [setupTimeoutReply]

/-- Step 1 preserves the request message's length. -/
theorem getSetupInfoStep1_msg_len (envs : Nat → LinkEnv) (st : SetupState)
    (m : CAN_MSG_TYPE) : (getSetupInfoStep1 envs st m).msg.len = m.len := by
  cases h : monFails (envs 0)
  · rw [getSetupInfoStep1_ok envs st m h]
    exact getSetupInfoStep2_msg_len _ _ _
  · rw [getSetupInfoStep1_fail envs st m h]
    simp [setupTimeoutReply]

/-- A monitor setup query while the local stack is not ready reports 6. -/
theorem getSetupInfo_notReady (envs : Nat → LinkEnv) (st : SetupState)
    (msg : CAN_MSG_TYPE) (hm : msg.dirn = .monitor) (hr : st.ready = false) :
    getSetupInfo envs st msg =
      { st := st, msg := { msg with len := 1, data := msg.data.set 0 0x06 },
        ret := -1, queries := 0, unregs := 0 } := by
  unfold getSetupInfo
  simp [hm, hr]

/-- A monitor setup query after a completed setup reports 5 and does
nothing. -/
theorem getSetupInfo_already (envs : Nat → LinkEnv) (st : SetupState)
    (msg : CAN_MSG_TYPE) (hm : msg.dirn = .monitor) (hr : st.ready = true)
    (hi : st.initialized = true) :
    getSetupInfo envs st msg =
      { st := st, msg := { msg with len := 1, data := msg.data.set 0 0x05 },
        ret := -1, queries := 0, unregs := 0 } := by
  unfold getSetupInfo
  simp [hm, hr, hi]

/-- C4: if negotiation step k+1 of 4 fails after steps 1..k succeeded, every
registration made in this attempt is popped again (LIFO): the registry ends
exactly as before the attempt (a step-3 failure performs three unregister
calls), the firmware stays un-initialized and the call reports failure. -/
theorem negotiation_rollback (envs : Nat → LinkEnv) (st : SetupState)
    (msg : CAN_MSG_TYPE) (k : Nat) (hm : msg.dirn = .monitor)
    (hr : st.ready = true) (hi : st.initialized = false) (hk : k < 4)
    (hpre : ∀ j, j < k → monFails (envs j) = false)
    (hfail : monFails (envs k) = true) :
    (getSetupInfo envs st msg).st.registry = st.registry ∧
    (getSetupInfo envs st msg).st.initialized = false ∧
    (getSetupInfo envs st msg).ret = -1 ∧
    (getSetupInfo envs st msg).unregs = [0, 2, 3, 4].getD k 0 := by
  rw [getSetupInfo_enters_step1 envs st msg hm hr hi]
  interval_cases k
  · rw [getSetupInfoStep1_fail envs st _ hfail]
    simp [hi]
  · rw [getSetupInfoStep1_ok envs st _ (hpre 0 (by omega)),
      getSetupInfoStep2_fail envs _ _ hfail]
    simp [hi]
  · rw [getSetupInfoStep1_ok envs st _ (hpre 0 (by omega)),
      getSetupInfoStep2_ok envs _ _ (hpre 1 (by omega)),
      getSetupInfoStep3_fail envs _ _ hfail]
    simp [hi]
  · rw [getSetupInfoStep1_ok envs st _ (hpre 0 (by omega)),
      getSetupInfoStep2_ok envs _ _ (hpre 1 (by omega)),
      getSetupInfoStep3_ok envs _ _ (hpre 2 (by omega)),
      getSetupInfoStep4_fail (envs 3) _ _ hfail]
    simp [hi]

/-- C4 witness: steps 1 and 2 succeed, step 3 times out; the registry is back
to its pre-negotiation contents after three unregister calls. -/
theorem negotiation_rollback_w :
    (getSetupInfo (envsFailFrom 2) st0 msgSetup).st.registry = st0.registry ∧
    (getSetupInfo (envsFailFrom 2) st0 msgSetup).st.initialized = false ∧
    (getSetupInfo (envsFailFrom 2) st0 msgSetup).ret = -1 ∧
    (getSetupInfo (envsFailFrom 2) st0 msgSetup).unregs = [0, 2, 3, 4].getD 2 0 :=
  negotiation_rollback (envsFailFrom 2) st0 msgSetup 2 rfl rfl rfl (by decide)
    (by
      intro j hj
      simp only [envsFailFrom]
      rw [if_pos hj]
      decide)
    (by decide)

/-- C5: a monitor-direction setup query always returns a 1-byte status:
6 when the stack is not ready, 5 when setup already completed (state
untouched, ARCOM not re-queried), 0 when negotiation just completed, and 7
when a negotiation step timed out. -/
theorem setup_status_byte (envs : Nat → LinkEnv) (st : SetupState)
    (msg : CAN_MSG_TYPE) (hm : msg.dirn = .monitor) (hd : msg.data ≠ []) :
    (getSetupInfo envs st msg).msg.len = 1 ∧
    (st.ready = false →
      (getSetupInfo envs st msg).msg.data.getD 0 0 = 6 ∧
      (getSetupInfo envs st msg).ret = -1) ∧
    (st.ready = true → st.initialized = true →
      (getSetupInfo envs st msg).msg.data.getD 0 0 = 5 ∧
      (getSetupInfo envs st msg).st = st ∧
      (getSetupInfo envs st msg).queries = 0) ∧
    (st.ready = true → st.initialized = false →
      ((∀ j, j < 4 → monFails (envs j) = false) →
        (getSetupInfo envs st msg).msg.data.getD 0 0 = 0 ∧
        (getSetupInfo envs st msg).ret = 0 ∧
        (getSetupInfo envs st msg).st.initialized = true) ∧
      (∀ k, k < 4 → (∀ j, j < k → monFails (envs j) = false) →
        monFails (envs k) = true →
        (getSetupInfo envs st msg).msg.data.getD 0 0 = 7 ∧
        (getSetupInfo envs st msg).ret = -1)) := by
  have h6 : (msg.data.set 0 6).getD 0 0 = 6 := getD_set_zero _ _ hd
  have h5v : (msg.data.set 0 5).getD 0 0 = 5 := getD_set_zero _ _ hd
  have h7 : (msg.data.set 0 7).getD 0 0 = 7 := getD_set_zero _ _ hd
  have h0v : (msg.data.set 0 0).getD 0 0 = 0 := getD_set_zero _ _ hd
  refine ⟨?_, ?_, ?_, ?_⟩
  · by_cases hr : st.ready = true
    · by_cases hi : st.initialized = true
      · rw [getSetupInfo_already envs st msg hm hr hi]
      · rw [getSetupInfo_enters_step1 envs st msg hm hr (by simpa using hi)]
        rw [getSetupInfoStep1_msg_len]
    · rw [getSetupInfo_notReady envs st msg hm (by simpa using hr)]
  · intro hr
    rw [getSetupInfo_notReady envs st msg hm hr]
    exact ⟨by simpa using h6, rfl⟩
  · intro hr hi
    rw [getSetupInfo_already envs st msg hm hr hi]
    exact ⟨by simpa using h5v, rfl, rfl⟩
  · intro hr hi
    constructor
    · intro hok
      rw [getSetupInfo_enters_step1 envs st msg hm hr hi,
        getSetupInfoStep1_ok envs st _ (hok 0 (by omega)),
        getSetupInfoStep2_ok envs _ _ (hok 1 (by omega)),
        getSetupInfoStep3_ok envs _ _ (hok 2 (by omega)),
        getSetupInfoStep4_ok (envs 3) _ _ (hok 3 (by omega))]
      exact ⟨by simpa using h0v, rfl, rfl⟩
    · intro k hk hpre hfail
      rw [getSetupInfo_enters_step1 envs st msg hm hr hi]
      interval_cases k
      · rw [getSetupInfoStep1_fail envs st _ hfail]
        exact ⟨by simpa [setupTimeoutReply] using h7, rfl⟩
      · rw [getSetupInfoStep1_ok envs st _ (hpre 0 (by omega)),
          getSetupInfoStep2_fail envs _ _ hfail]
        exact ⟨by simpa [setupTimeoutReply] using h7, rfl⟩
      · rw [getSetupInfoStep1_ok envs st _ (hpre 0 (by omega)),
          getSetupInfoStep2_ok envs _ _ (hpre 1 (by omega)),
          getSetupInfoStep3_fail envs _ _ hfail]
        exact ⟨by simpa [setupTimeoutReply] using h7, rfl⟩
      · rw [getSetupInfoStep1_ok envs st _ (hpre 0 (by omega)),
          getSetupInfoStep2_ok envs _ _ (hpre 1 (by omega)),
          getSetupInfoStep3_ok envs _ _ (hpre 2 (by omega)),
          getSetupInfoStep4_fail (envs 3) _ _ hfail]
        exact ⟨by simpa [setupTimeoutReply] using h7, rfl⟩

/-- C5 witness: a full successful negotiation reports status 0 and leaves
the firmware initialized. -/
theorem setup_status_byte_w :
    (getSetupInfo (fun _ => envOK) st0 msgSetup).msg.data.getD 0 0 = 0 ∧
    (getSetupInfo (fun _ => envOK) st0 msgSetup).ret = 0 ∧
    (getSetupInfo (fun _ => envOK) st0 msgSetup).st.initialized = true :=
  ((setup_status_byte (fun _ => envOK) st0 msgSetup rfl (by decide)).2.2.2
    rfl rfl).1 (by intro j hj; decide)

/-- C7 witness: a control-direction message arriving at the monitor handler
is answered by the control path with exactly one redirect. -/
theorem cross_dispatch_once_w :
    monitorMsg 2 { m1 := envOK, m2 := envOK, c := envOK }
        { dirn := .control, relative_address := 3, len := 0, data := zeros8 } =
      { controlMsgBody { m1 := envOK, m2 := envOK, c := envOK }
          { dirn := .control, relative_address := 3, len := 0, data := zeros8 } with
        redirects := 1 } :=
  ((cross_dispatch_once 0 { m1 := envOK, m2 := envOK, c := envOK }
    { dirn := .control, relative_address := 3, len := 0, data := zeros8 }).1 rfl).1

end AMBSI1
